import Mathlib

/-!
Shallow embedding of the Assessments lead-pipeline backend
(`backend/app/pipeline_service.py`, `backend/app/prompts.py`,
`backend/app/routers/leads.py`, `backend/app/search_service.py`,
`backend/app/models.py`, `scripts/cleanup_activities.py`) and proofs of the
behavioural properties stated about it.

Conventions of the embedding:
* Python `dict`/JSON values are modelled by the inductive `Json`
  (objects as association lists in insertion order).
* Python `None`-able fields are `Option`s.
* Database state is an explicit `St` record threaded through operations.
* Timestamps are natural-number ticks (`created_at`); `St.now` is the clock.
* Numbers (scores, weights, relevance) are `ℚ`.
* The external text-generation call (`call_grok`) and Python's `json.loads`
  are passed in as explicit parameters where an operation consumes them;
  a concrete executable `jsonLoads` mirroring `json.loads` on the JSON
  fragment this program uses is provided for concrete runs.
-/

/-- JSON values / Python dicts, as produced by `json.loads`. Objects keep
field order (Python dicts preserve insertion order). -/
inductive Json where
  | null : Json
  | bool : Bool → Json
  | num : ℚ → Json
  | str : String → Json
  | arr : List Json → Json
  | obj : List (String × Json) → Json
deriving Repr

/-- Render a rational the way Python renders JSON numbers: integers without
a fractional part. (Only integer values occur in the data this program
serialises.) -/
def renderNum (q : ℚ) : String :=
  if q.den = 1 then toString q.num else toString q.num ++ "/" ++ toString q.den

/-- Escape a string for JSON output, as `json.dumps` does. -/
def jsonEscape (s : String) : String :=
  String.join (s.data.map (fun c =>
    if c = '"' then "\\\""
    else if c = '\\' then "\\\\"
    else String.singleton c))

mutual
/-- `json.dumps` with Python's default separators `", "` and `": "`. -/
def dumps : Json → String
  | Json.null => "null"
  | Json.bool true => "true"
  | Json.bool false => "false"
  | Json.num q => renderNum q
  | Json.str s => "\"" ++ jsonEscape s ++ "\""
  | Json.arr xs => "[" ++ String.intercalate ", " (dumpsList xs) ++ "]"
  | Json.obj fs => "\x7b" ++ String.intercalate ", " (dumpsObj fs) ++ "\x7d"

def dumpsList : List Json → List String
  | [] => []
  | x :: xs => dumps x :: dumpsList xs

def dumpsObj : List (String × Json) → List String
  | [] => []
  | (k, v) :: fs => ("\"" ++ jsonEscape k ++ "\": " ++ dumps v) :: dumpsObj fs
end

mutual
/-- Python `repr` of a parsed JSON value (used inside `str()` of
containers). -/
def pyRepr : Json → String
  | Json.null => "None"
  | Json.bool true => "True"
  | Json.bool false => "False"
  | Json.num q => renderNum q
  | Json.str s => "'" ++ s ++ "'"
  | Json.arr xs => "[" ++ String.intercalate ", " (pyReprList xs) ++ "]"
  | Json.obj fs => "\x7b" ++ String.intercalate ", " (pyReprObj fs) ++ "\x7d"

def pyReprList : List Json → List String
  | [] => []
  | x :: xs => pyRepr x :: pyReprList xs

def pyReprObj : List (String × Json) → List String
  | [] => []
  | (k, v) :: fs => ("'" ++ k ++ "': " ++ pyRepr v) :: pyReprObj fs
end

/-- Python `str()` of a parsed JSON value. -/
def pyStr : Json → String
  | Json.null => "None"
  | Json.bool true => "True"
  | Json.bool false => "False"
  | Json.num q => renderNum q
  | Json.str s => s
  | j => pyRepr j

/-- ASCII lower-casing of one character. -/
def lowerChar (c : Char) : Char :=
  if 'A' ≤ c ∧ c ≤ 'Z' then Char.ofNat (c.toNat + 32) else c

/-- Python `s.lower()` (ASCII, which is all this program's data uses). -/
def pyLower (s : String) : String := String.mk (s.data.map lowerChar)

/-- Python whitespace for `str.strip()`. -/
def isPyWs (c : Char) : Bool := c = ' ' ∨ c = '\n' ∨ c = '\t' ∨ c = '\r'

/-- Python `s.strip()`. -/
def pyStrip (s : String) : String :=
  String.mk (((s.data.dropWhile isPyWs).reverse.dropWhile isPyWs).reverse)

/-- Python's `needle in hay` substring test. -/
def substrOf (needle hay : String) : Bool :=
  (hay.data.tails).any (fun t => needle.data.isPrefixOf t)

/-- SQL `field ILIKE '%query%'`: case-insensitive substring containment. -/
def ilikeContains (query field : String) : Bool :=
  substrOf (pyLower query) (pyLower field)

/-- SQL `field ILIKE query` with no wildcards: case-insensitive equality
(used by the duplicate-company pre-check). -/
def ilikeEq (query field : String) : Bool :=
  pyLower field = pyLower query

/-- Python `f"{x}"` on an optional string: `None` prints as `"None"`. -/
def pyFmtOpt (o : Option String) : String := o.getD "None"

/-- Python truthiness of an optional string: `None` and `""` are falsy. -/
def pyTruthy (o : Option String) : Bool := o.getD "" ≠ ""

/-- Python `text[:n]`. -/
def pyTake (n : ℕ) (s : String) : String := String.mk (s.data.take n)

-- ---------------------------------------------------------------------------
-- Data model (`backend/app/models.py`)
-- ---------------------------------------------------------------------------

/-- `PipelineStage` enum from `models.py`. -/
inductive PipelineStage where
  | NEW | QUALIFIED | CONTACTED | MEETING | WON | LOST
deriving Repr, DecidableEq

/-- The `.value` string of a `PipelineStage`. -/
def PipelineStage.value : PipelineStage → String
  | .NEW => "New"
  | .QUALIFIED => "Qualified"
  | .CONTACTED => "Contacted"
  | .MEETING => "Meeting"
  | .WON => "Won"
  | .LOST => "Lost"

/-- `Lead` table row from `models.py`. -/
structure Lead where
  id : ℕ
  company : String
  name : Option String := none
  title : Option String := none
  email : Option String := none
  phone : Option String := none
  website : Option String := none
  company_metadata : Option String := none
  score : ℚ := 0
  stage : PipelineStage := .NEW
  created_at : ℕ := 0
deriving Repr, DecidableEq

/-- `ActivityLog` table row from `models.py`; `detail` is nullable. -/
structure ActivityLog where
  id : ℕ
  lead_id : ℕ
  actor : String
  action : String
  detail : Option String := none
  created_at : ℕ := 0
deriving Repr, DecidableEq

/-- Database state: the two tables, an id sequence for activities, and a
clock supplying `datetime.utcnow()` ticks. -/
structure St where
  leads : List Lead
  activities : List ActivityLog
  nextActivityId : ℕ := 1
  nextLeadId : ℕ := 1
  now : ℕ := 0
deriving Repr, DecidableEq

/-- `session.get(Lead, lead_id)`. -/
def St.getLead (st : St) (lead_id : ℕ) : Option Lead :=
  st.leads.find? (fun l => l.id = lead_id)

/-- Replace a lead row by id (`session.add` + `commit` on a mutated row). -/
def St.putLead (st : St) (l : Lead) : St :=
  { st with leads := st.leads.map (fun x => if x.id = l.id then l else x) }

-- ---------------------------------------------------------------------------
-- PipelineService (`backend/app/pipeline_service.py`)
-- ---------------------------------------------------------------------------

/-- Python truthiness of a JSON value (`if metadata:`): `None`, `False`, `0`,
`""`, `[]` and `{}` are falsy. -/
def jsonTruthy : Json → Bool
  | Json.null => false
  | Json.bool b => b
  | Json.num q => decide (q ≠ 0)
  | Json.str s => s ≠ ""
  | Json.arr xs => !xs.isEmpty
  | Json.obj fs => !fs.isEmpty

/-- Truthiness of the optional `metadata` argument. -/
def metaTruthy : Option Json → Bool
  | none => false
  | some j => jsonTruthy j

/-- `PipelineService.log_activity`: builds `detail_text` exactly as the
source branches on `action` and `metadata`, appends one `ActivityLog` row
and commits. Returns the new state and the created activity. -/
def log_activity (st : St) (lead_id : ℕ) (actor action : String)
    (detail : Option String := none) (metadata : Option Json := none) :
    St × ActivityLog :=
  let detail_text : Option String :=
    if action = "qualification_completed" ∨ action = "outreach_generated" then
      if metaTruthy metadata then
        some (pyFmtOpt detail ++ " " ++ dumps (metadata.getD Json.null))
      else
        if pyTruthy detail then detail else some "No details provided"
    else
      if metaTruthy metadata then
        if pyTruthy detail then
          some (detail.getD "" ++ " " ++ dumps (metadata.getD Json.null))
        else
          some (dumps (metadata.getD Json.null))
      else
        detail
  let a : ActivityLog :=
    { id := st.nextActivityId
      lead_id := lead_id
      actor := actor
      action := action
      detail := detail_text
      created_at := st.now }
  ({ st with activities := st.activities ++ [a],
             nextActivityId := st.nextActivityId + 1 }, a)

/-- `PipelineService.progress_lead_stage`: no-op (no activity) when the new
stage equals the current one, otherwise mutates the stage and logs one
`stage_progression` activity. -/
def progress_lead_stage (st : St) (lead_id : ℕ) (new_stage : PipelineStage)
    (actor : String := "system") (reason : Option String := none) :
    Except String (St × Lead) :=
  match st.getLead lead_id with
  | none => Except.error ("Lead " ++ toString lead_id ++ " not found")
  | some lead =>
    if new_stage = lead.stage then
      Except.ok (st, lead)
    else
      let lead' := { lead with stage := new_stage }
      let detail := "Stage changed from " ++ lead.stage.value ++ " to "
        ++ new_stage.value
        ++ (match reason with | some r => " - " ++ r | none => "")
      let st1 := st.putLead lead'
      let st2 := (log_activity st1 lead_id actor "stage_progression"
        (some detail) none).1
      Except.ok (st2, lead')

/-- `PipelineService.auto_progress_after_qualification`: maps the numeric
score to a target stage (two reasons for `≥80` and `60–79`, one target) and
either delegates to `progress_lead_stage` or rewrites the stage field
without logging. Note: the lead's `score` field is never written here. -/
def auto_progress_after_qualification (st : St) (lead_id : ℕ) (score : ℚ) :
    Except String (St × Lead) :=
  match st.getLead lead_id with
  | none => Except.error ("Lead " ++ toString lead_id ++ " not found")
  | some lead =>
    let stageReason : PipelineStage × String :=
      if 80 ≤ score then
        (.QUALIFIED, "High qualification score (" ++ renderNum score
          ++ ") - auto-progressed to Qualified")
      else if 60 ≤ score then
        (.QUALIFIED, "Good qualification score (" ++ renderNum score
          ++ ") - auto-progressed to Qualified")
      else
        (.NEW, "Low qualification score (" ++ renderNum score
          ++ ") - kept at New stage")
    if stageReason.1 ≠ lead.stage then
      progress_lead_stage st lead_id stageReason.1 "system" (some stageReason.2)
    else
      let lead' := { lead with stage := stageReason.1 }
      Except.ok (st.putLead lead', lead')

-- Concrete fixtures for the pipeline theorems.

/-- A freshly created lead: score 0, stage `New`. -/
def leadC1 : Lead := { id := 1, company := "Acme" }

/-- A one-lead database for exercising auto-progression. -/
def stC1 : St := { leads := [leadC1], activities := [] }

/-- Shared shape lemma: on an existing lead, `auto_progress_after_qualification`
succeeds and returns the stored lead with its stage rewritten to the policy
target; no other field (in particular `score`) is touched. -/
theorem auto_progress_shape (st : St) (lead_id : ℕ) (s : ℚ) (lead : Lead)
    (h : st.getLead lead_id = some lead) :
    ∃ st', auto_progress_after_qualification st lead_id s
      = Except.ok (st', { lead with
          stage := if 60 ≤ s then PipelineStage.QUALIFIED else PipelineStage.NEW }) := by
  have h60 : ∀ hq : (80:ℚ) ≤ s, (60:ℚ) ≤ s := fun hq => by linarith
  simp only [auto_progress_after_qualification, h]
  by_cases h80 : (80:ℚ) ≤ s
  · simp only [if_pos h80, if_pos (h60 h80)]
    by_cases hq : PipelineStage.QUALIFIED = lead.stage
    · simp [hq]
    · simp only [ne_eq, hq, not_false_iff, if_pos, if_true]
      simp [progress_lead_stage, h, Ne.symm hq, hq]
  · simp only [if_neg h80]
    by_cases h60' : (60:ℚ) ≤ s
    · simp only [if_pos h60']
      by_cases hq : PipelineStage.QUALIFIED = lead.stage
      · simp [hq]
      · simp only [ne_eq, hq, not_false_iff, if_pos, if_true]
        simp [progress_lead_stage, h, Ne.symm hq, hq]
    · simp only [if_neg h60']
      by_cases hq : PipelineStage.NEW = lead.stage
      · simp [hq]
      · simp only [ne_eq, hq, not_false_iff, if_pos, if_true]
        simp [progress_lead_stage, h, Ne.symm hq, hq]

/-- C1 (counterexample): on a lead whose stored score is 0, calling
`autoProgressAfterQualification` with score 90 moves the stage to
`Qualified` but the resulting lead's `score` field is still 0, not 90 —
the function never writes `score`, so "the resulting lead's score field
equals s" is false as stated. -/
theorem C1_counterexample :
    (auto_progress_after_qualification stC1 1 90).map
      (fun p => (p.2.stage, p.2.score))
      = Except.ok (PipelineStage.QUALIFIED, (0 : ℚ)) ∧ (0 : ℚ) ≠ 90 :=
  ⟨by rfl, by norm_num⟩

/-- C1 (amended): for every existing lead and numeric score `s`,
`autoProgressAfterQualification` sets the target stage to `Qualified` iff
`s ≥ 60` (the `≥80` and `60–79` bands share this target) and to `New` when
`s < 60`, and the resulting lead's `score` field equals the lead's score
*before the call* (the function never writes `score`; in the qualify flow
the caller has already persisted `s`, so there the equality with `s`
holds). -/
theorem C1_auto_progress_stage_policy (st : St) (lead_id : ℕ) (s : ℚ)
    (lead : Lead) (h : st.getLead lead_id = some lead) :
    ∃ st' l', auto_progress_after_qualification st lead_id s
        = Except.ok (st', l')
      ∧ (l'.stage = PipelineStage.QUALIFIED ↔ 60 ≤ s)
      ∧ (s < 60 → l'.stage = PipelineStage.NEW)
      ∧ l'.score = lead.score := by
  obtain ⟨st', hst'⟩ := auto_progress_shape st lead_id s lead h
  refine ⟨st', _, hst', ?_, ?_, rfl⟩
  · by_cases h60 : (60:ℚ) ≤ s
    · simp [h60]
    · simp [h60]
  · intro hlt
    rw [if_neg (not_le.mpr hlt)]

/-- C1 witness: concrete instantiation of the amended theorem on `stC1`
with score 90. -/
theorem C1_auto_progress_stage_policy_witness :
    ∃ st' l', auto_progress_after_qualification stC1 1 90
        = Except.ok (st', l')
      ∧ (l'.stage = PipelineStage.QUALIFIED ↔ (60:ℚ) ≤ 90)
      ∧ ((90:ℚ) < 60 → l'.stage = PipelineStage.NEW)
      ∧ l'.score = leadC1.score :=
  C1_auto_progress_stage_policy stC1 1 90 leadC1 (by rfl)

/-- C3: `progressStage` on an existing lead is a strict no-op (same state,
same lead, zero new activities) when the requested stage equals the current
one, and otherwise updates the stage and appends exactly one activity,
whose `action` is `"stage_progression"`. -/
theorem C3_progress_stage_logs_iff_changed (st : St) (lead_id : ℕ)
    (ns : PipelineStage) (actor : String) (reason : Option String)
    (lead : Lead) (h : st.getLead lead_id = some lead) :
    (ns = lead.stage →
        progress_lead_stage st lead_id ns actor reason = Except.ok (st, lead))
    ∧ (ns ≠ lead.stage →
        ∃ st' a, progress_lead_stage st lead_id ns actor reason
            = Except.ok (st', { lead with stage := ns })
          ∧ st'.activities = st.activities ++ [a]
          ∧ a.action = "stage_progression"
          ∧ a.lead_id = lead_id
          ∧ st'.leads = (st.putLead { lead with stage := ns }).leads) := by
  constructor
  · intro heq
    simp [progress_lead_stage, h, heq]
  · intro hne
    have key : progress_lead_stage st lead_id ns actor reason
        = Except.ok ((log_activity (st.putLead { lead with stage := ns })
            lead_id actor "stage_progression"
            (some ("Stage changed from " ++ lead.stage.value ++ " to "
              ++ ns.value
              ++ (match reason with | some r => " - " ++ r | none => "")))
            none).1,
          { lead with stage := ns }) := by
      simp only [progress_lead_stage, h]
      rw [if_neg hne]
      rfl
    exact ⟨_, _, key, rfl, rfl, rfl, rfl⟩

/-- C3 witness: on `stC1` (lead 1 is at stage `New`), progressing to `New`
is a strict no-op and progressing to `Won` appends exactly one
`stage_progression` activity. -/
theorem C3_progress_stage_logs_iff_changed_witness :
    (progress_lead_stage stC1 1 PipelineStage.NEW "user" none
        = Except.ok (stC1, leadC1))
    ∧ (∃ st' a, progress_lead_stage stC1 1 PipelineStage.WON "user" none
          = Except.ok (st', { leadC1 with stage := PipelineStage.WON })
        ∧ st'.activities = stC1.activities ++ [a]
        ∧ a.action = "stage_progression"
        ∧ a.lead_id = 1
        ∧ st'.leads = (stC1.putLead { leadC1 with stage := PipelineStage.WON }).leads) :=
  ⟨(C3_progress_stage_logs_iff_changed stC1 1 PipelineStage.NEW "user" none
      leadC1 (by rfl)).1 (by rfl),
   (C3_progress_stage_logs_iff_changed stC1 1 PipelineStage.WON "user" none
      leadC1 (by rfl)).2 (by decide)⟩

-- ---------------------------------------------------------------------------
-- Qualification prompt (`backend/app/prompts.py`)
-- ---------------------------------------------------------------------------

/-- The fixed default scoring weights of `qualification_prompt`. -/
def default_weights : List (String × ℚ) :=
  [("company_size", 1), ("industry_fit", 2), ("funding", 1),
   ("decision_maker", 2), ("tech_stack", 1), ("revenue", 1)]

/-- `weights = scoring_weights or {…defaults…}`: Python `or` replaces the
whole dict; only a falsy argument (`None` or an empty dict) falls back to
the defaults. -/
def promptWeights (scoring_weights : Option (List (String × ℚ))) :
    List (String × ℚ) :=
  match scoring_weights with
  | none => default_weights
  | some [] => default_weights
  | some w => w

/-- One criteria line of the prompt, keyed on the criterion name; names
outside the six known ones produce no line. -/
def criterion_line (criterion : String) (weight : ℚ) : Option String :=
  if criterion = "company_size" then
    some ("- Company Size (weight: " ++ renderNum weight
      ++ "): Evaluate based on employee count - larger companies may have more budget and decision-making complexity")
  else if criterion = "industry_fit" then
    some ("- Industry Fit (weight: " ++ renderNum weight
      ++ "): Assess alignment with target industries - tech, SaaS, finance typically score higher")
  else if criterion = "funding" then
    some ("- Recent Funding (weight: " ++ renderNum weight
      ++ "): Consider recent funding rounds - well-funded companies have budget for new solutions")
  else if criterion = "decision_maker" then
    some ("- Decision Maker (weight: " ++ renderNum weight
      ++ "): Evaluate title/role - C-level, VP, Director roles indicate decision-making authority")
  else if criterion = "tech_stack" then
    some ("- Tech Stack (weight: " ++ renderNum weight
      ++ "): Assess technology alignment - modern tech stacks indicate innovation readiness")
  else if criterion = "revenue" then
    some ("- Revenue (weight: " ++ renderNum weight
      ++ "): Consider annual revenue - higher revenue suggests budget availability")
  else none

/-- The `criteria_explanation` list built by the `for criterion, weight in
weights.items()` loop. -/
def criteria_explanation (weights : List (String × ℚ)) : List String :=
  weights.filterMap (fun p => criterion_line p.1 p.2)

/-- C2 (counterexample): with caller weights `{"funding": 5}` the prompt
uses only the caller's map — `company_size` (and every other default) is
dropped, and the rendered criteria list has a single line, refuting "no
default criterion is ever dropped". -/
theorem C2_counterexample :
    promptWeights (some [("funding", 5)]) = [("funding", (5 : ℚ))]
    ∧ ¬ (∃ q : ℚ, ("company_size", q) ∈ promptWeights (some [("funding", 5)]))
    ∧ criteria_explanation (promptWeights (some [("funding", 5)]))
        = ["- Recent Funding (weight: 5): Consider recent funding rounds - well-funded companies have budget for new solutions"] := by
  refine ⟨rfl, ?_, rfl⟩
  rintro ⟨q, hq⟩
  simp only [promptWeights, List.mem_singleton, Prod.mk.injEq] at hq
  exact absurd hq.1 (by decide)

/-- C2 (amended): `qualification_prompt` does not merge weights. A falsy
caller argument (`None`/empty) yields the full default set (all six
criteria rendered); a non-empty caller map entirely replaces the defaults,
so caller-named criteria get the caller's weight and omitted default
criteria are dropped from the prompt. -/
theorem C2_prompt_weights_replace_defaults (w : List (String × ℚ)) :
    promptWeights none = default_weights
    ∧ promptWeights (some []) = default_weights
    ∧ (criteria_explanation default_weights).length = 6
    ∧ (w ≠ [] → promptWeights (some w) = w) := by
  refine ⟨rfl, rfl, rfl, ?_⟩
  intro hw
  cases w with
  | nil => exact absurd rfl hw
  | cons a t => rfl

/-- C2 witness: the amended theorem at the concrete caller map
`{"funding": 5}`, with the non-emptiness hypothesis discharged. -/
theorem C2_prompt_weights_replace_defaults_witness :
    promptWeights (some [("funding", (5 : ℚ))]) = [("funding", (5 : ℚ))] :=
  (C2_prompt_weights_replace_defaults [("funding", 5)]).2.2.2 (by simp)

-- ---------------------------------------------------------------------------
-- `json.loads` (Python stdlib): an executable parser for the JSON fragment
-- this program exchanges (objects, arrays, strings, decimal numbers,
-- booleans, null).
-- ---------------------------------------------------------------------------

/-- Skip JSON whitespace. -/
def skipWs : List Char → List Char
  | c :: rest =>
    if c = ' ' ∨ c = '\n' ∨ c = '\t' ∨ c = '\r' then skipWs rest else c :: rest
  | [] => []

/-- Parse a JSON string body after the opening quote; returns the decoded
string and the input after the closing quote. -/
def parseStringBody : List Char → Option (String × List Char)
  | [] => none
  | '"' :: rest => some ("", rest)
  | '\\' :: c :: rest => do
    let esc ←
      if c = '"' then some "\""
      else if c = '\\' then some "\\"
      else if c = '/' then some "/"
      else if c = 'n' then some "\n"
      else if c = 't' then some "\t"
      else if c = 'r' then some "\r"
      else none
    let (s, r) ← parseStringBody rest
    some (esc ++ s, r)
  | c :: rest => do
    let (s, r) ← parseStringBody rest
    some (String.singleton c ++ s, r)

/-- Longest prefix of decimal digits. -/
def parseDigits : List Char → List Char × List Char
  | c :: rest =>
    if c.isDigit then
      let (ds, r) := parseDigits rest
      (c :: ds, r)
    else ([], c :: rest)
  | [] => ([], [])

/-- Numeric value of a digit list. -/
def natOfDigits (ds : List Char) : ℕ :=
  ds.foldl (fun n c => n * 10 + (c.toNat - '0'.toNat)) 0

/-- Parse a JSON number (sign, integer part, optional fraction). -/
def parseNumber (cs : List Char) : Option (ℚ × List Char) :=
  let (neg, cs1) := match cs with
    | '-' :: r => (true, r)
    | _ => (false, cs)
  let (ds, cs2) := parseDigits cs1
  if ds.isEmpty then none
  else
    match cs2 with
    | '.' :: r =>
      let (fs, cs3) := parseDigits r
      if fs.isEmpty then none
      else
        let v : ℚ := (natOfDigits ds : ℚ)
          + (natOfDigits fs : ℚ) / ((10 : ℚ) ^ fs.length)
        some ((if neg then -v else v), cs3)
    | _ =>
      let v : ℚ := (natOfDigits ds : ℚ)
      some ((if neg then -v else v), cs2)

mutual
/-- Fuel-indexed JSON value parser. -/
def parseVal : ℕ → List Char → Option (Json × List Char)
  | 0, _ => none
  | Nat.succ fuel, cs =>
    match skipWs cs with
    | '{' :: rest =>
      (match skipWs rest with
        | '}' :: r2 => some (Json.obj [], r2)
        | _ => do
          let (fs, r2) ← parseObjItems fuel rest
          some (Json.obj fs, r2))
    | '[' :: rest =>
      (match skipWs rest with
        | ']' :: r2 => some (Json.arr [], r2)
        | _ => do
          let (xs, r2) ← parseArrItems fuel rest
          some (Json.arr xs, r2))
    | '"' :: rest => do
      let (s, r) ← parseStringBody rest
      some (Json.str s, r)
    | 't' :: 'r' :: 'u' :: 'e' :: rest => some (Json.bool true, rest)
    | 'f' :: 'a' :: 'l' :: 's' :: 'e' :: rest => some (Json.bool false, rest)
    | 'n' :: 'u' :: 'l' :: 'l' :: rest => some (Json.null, rest)
    | other => do
      let (q, r) ← parseNumber other
      some (Json.num q, r)

/-- Parse the members of a non-empty JSON object, consuming the closing
brace. -/
def parseObjItems : ℕ → List Char → Option (List (String × Json) × List Char)
  | 0, _ => none
  | Nat.succ fuel, cs =>
    match skipWs cs with
    | '"' :: rest => do
      let (k, r1) ← parseStringBody rest
      match skipWs r1 with
      | ':' :: r2 => do
        let (v, r3) ← parseVal fuel r2
        match skipWs r3 with
        | ',' :: r4 => do
          let (fs, r5) ← parseObjItems fuel r4
          some ((k, v) :: fs, r5)
        | '}' :: r4 => some ([(k, v)], r4)
        | _ => none
      | _ => none
    | _ => none

/-- Parse the elements of a non-empty JSON array, consuming the closing
bracket. -/
def parseArrItems : ℕ → List Char → Option (List Json × List Char)
  | 0, _ => none
  | Nat.succ fuel, cs => do
    let (v, r1) ← parseVal fuel cs
    match skipWs r1 with
    | ',' :: r2 => do
      let (xs, r3) ← parseArrItems fuel r2
      some (v :: xs, r3)
    | ']' :: r2 => some ([v], r2)
    | _ => none
end

/-- `json.loads`: parse the whole text (allowing trailing whitespace);
anything else is a `JSONDecodeError`, i.e. `none`. -/
def jsonLoads (s : String) : Option Json :=
  match parseVal (s.data.length + 2) s.data with
  | some (v, rest) => if (skipWs rest).isEmpty then some v else none
  | none => none


-- ---------------------------------------------------------------------------
-- Python runtime semantics used by the routers and the search service
-- ---------------------------------------------------------------------------

/-- Python exceptions that the modelled code can raise. -/
inductive PyErr where
  | attributeError | typeError | valueError | keyError
deriving Repr, DecidableEq

/-- Python `key in value` for a parsed JSON value: key lookup on dicts,
membership on lists, substring on strings, `TypeError` otherwise. -/
def pyContains : Json → String → Except PyErr Bool
  | Json.obj fs, k => .ok (fs.any (fun p => p.1 = k))
  | Json.arr xs, k =>
    .ok (xs.any (fun x => match x with | Json.str s => s = k | _ => false))
  | Json.str s, k => .ok (substrOf k s)
  | _, _ => .error .typeError

/-- Python `value.get(key, default)`: only dicts have `.get`
(`AttributeError` otherwise). -/
def pyGet : Json → String → Json → Except PyErr Json
  | Json.obj fs, k, dflt =>
    .ok (((fs.find? (fun p => p.1 = k)).map Prod.snd).getD dflt)
  | _, _, _ => .error .attributeError

/-- Python `value[key]` with a string key: dict lookup (`KeyError` when
absent), `TypeError` on everything else. -/
def pySubscript : Json → String → Except PyErr Json
  | Json.obj fs, k =>
    match (fs.find? (fun p => p.1 = k)).map Prod.snd with
    | some v => .ok v
    | none => .error .keyError
  | _, _ => .error .typeError

/-- Python `value.items()`: only dicts (`AttributeError` otherwise). -/
def jsonItems : Json → Except PyErr (List (String × Json))
  | Json.obj fs => .ok fs
  | _ => .error .attributeError

/-- Python `float(str)`: parse a decimal literal after stripping
whitespace. -/
def parseNumericString (s : String) : Option ℚ :=
  match parseNumber (pyStrip s).data with
  | some (q, []) => some q
  | _ => none

/-- Python `float(value)` on a parsed JSON value: numbers pass through,
booleans coerce to 0/1, numeric strings parse (`ValueError` otherwise),
everything else is a `TypeError`. -/
def pyFloat : Json → Except PyErr ℚ
  | Json.num q => .ok q
  | Json.bool b => .ok (if b then 1 else 0)
  | Json.str s =>
    match parseNumericString s with
    | some q => .ok q
    | none => .error .valueError
  | _ => .error .typeError

/-- Python `value[:n]`: slicing works on strings and lists, `TypeError`
otherwise. -/
def pySlice (n : ℕ) : Json → Except PyErr Json
  | Json.str s => .ok (Json.str (pyTake n s))
  | Json.arr xs => .ok (Json.arr (xs.take n))
  | _ => .error .typeError

-- ---------------------------------------------------------------------------
-- SearchService (`backend/app/search_service.py`)
-- ---------------------------------------------------------------------------

/-- The OR of the `ilike` conditions `search_leads` builds for a given
`search_type`; an unknown type builds no conditions, so nothing matches. -/
def lead_matches (search_type query : String) (l : Lead) : Bool :=
  ((search_type == "all" || search_type == "company")
    && ilikeContains query l.company)
  || ((search_type == "all" || search_type == "contact")
    && ((l.name.map (ilikeContains query)).getD false
      || (l.title.map (ilikeContains query)).getD false
      || (l.email.map (ilikeContains query)).getD false))
  || ((search_type == "all" || search_type == "metadata")
    && (l.company_metadata.map (ilikeContains query)).getD false)

/-- Python `s.startswith(pat)`. -/
def startsWithPy (pat s : String) : Bool := pat.data.isPrefixOf s.data

/-- `SearchService._calculate_relevance_score` (the query argument is
already lower-cased by the caller). -/
def _calculate_relevance_score (lead : Lead) (query : String) : ℚ :=
  (if substrOf query (pyLower lead.company) then
    (10 : ℚ) + (if startsWithPy query (pyLower lead.company) then 5 else 0)
  else 0)
  + (if pyTruthy lead.name
        && substrOf query (pyLower (lead.name.getD "")) then 8 else 0)
  + (if pyTruthy lead.title
        && substrOf query (pyLower (lead.title.getD "")) then 6 else 0)
  + (if pyTruthy lead.email
        && substrOf query (pyLower (lead.email.getD "")) then 7 else 0)
  + (if pyTruthy lead.company_metadata
        && substrOf query (pyLower (lead.company_metadata.getD "")) then 4
     else 0)

/-- `SearchService._get_match_type`: first matching field in priority
order. -/
def _get_match_type (lead : Lead) (query : String) : String :=
  if substrOf query (pyLower lead.company) then "company"
  else if pyTruthy lead.name
      && substrOf query (pyLower (lead.name.getD "")) then "contact"
  else if pyTruthy lead.title
      && substrOf query (pyLower (lead.title.getD "")) then "title"
  else if pyTruthy lead.email
      && substrOf query (pyLower (lead.email.getD "")) then "email"
  else if pyTruthy lead.company_metadata
      && substrOf query (pyLower (lead.company_metadata.getD "")) then
    "metadata"
  else "unknown"

/-- One row of the `search_leads` result list. -/
structure LeadSearchResult where
  id : ℕ
  company : String
  name : Option String
  title : Option String
  email : Option String
  phone : Option String
  website : Option String
  score : ℚ
  stage : PipelineStage
  created_at : ℕ
  company_metadata : Json
  relevance_score : ℚ
  match_type : String
deriving Repr

/-- `results.sort(key=relevance_score, reverse=True)`: the comparison
relation. -/
def byRelevanceLead (a b : LeadSearchResult) : Prop :=
  b.relevance_score ≤ a.relevance_score

instance : DecidableRel byRelevanceLead :=
  fun a b => inferInstanceAs (Decidable (b.relevance_score ≤ a.relevance_score))

instance : IsTotal LeadSearchResult byRelevanceLead :=
  ⟨fun a b => le_total b.relevance_score a.relevance_score⟩

instance : IsTrans LeadSearchResult byRelevanceLead :=
  ⟨fun _ _ _ h1 h2 => le_trans h2 h1⟩

/-- `SearchService.search_leads`: filter by the type-dependent `ilike`
conditions, limit, build result rows, then sort by relevance score
descending. -/
def search_leads (st : St) (query : String) (search_type : String := "all")
    (limit : ℕ := 50) : List LeadSearchResult :=
  let query_lower := pyLower query
  let leads := (st.leads.filter (lead_matches search_type query)).take limit
  let results := leads.map (fun l =>
    { id := l.id
      company := l.company
      name := l.name
      title := l.title
      email := l.email
      phone := l.phone
      website := l.website
      score := l.score
      stage := l.stage
      created_at := l.created_at
      company_metadata :=
        match l.company_metadata with
        | some m => (jsonLoads m).getD (Json.obj [])
        | none => Json.obj []
      relevance_score := _calculate_relevance_score l query_lower
      match_type := _get_match_type l query_lower })
  results.insertionSort byRelevanceLead

/-- A string that starts with `pat` contains `pat` as a substring. -/
theorem substrOf_of_startsWithPy {pat s : String}
    (h : startsWithPy pat s = true) : substrOf pat s = true := by
  unfold substrOf
  rw [List.any_eq_true]
  exact ⟨s.data, by
    rw [List.mem_tails], h⟩

/-- Fixture for the C6 scenario: a lead with company "Acme AI". -/
def leadC6 : Lead := { id := 1, company := "Acme AI" }

/-- One-lead database for the C6 scenario. -/
def stC6 : St := { leads := [leadC6], activities := [] }

/-- The single row returned by the C6 scenario search. -/
def rC6 : LeadSearchResult :=
  ((search_leads stC6 "acme" "company" 50).head?).getD
    ⟨0, "", none, none, none, none, none, 0, .NEW, 0, Json.null, 0, ""⟩

/-- C6: (1) the relevance score of a lead is the additive sum
+10 company substring, +5 company prefix bonus, +8 name, +6 title,
+7 email, +4 metadata; (2) every search result carries exactly the
relevance score and match type of a stored lead that matched the query;
(3) searching `{company:"Acme AI"}` for "acme" with type "company" yields
relevance 15 and match type "company"; (4) results are sorted by
relevance score descending. -/
theorem C6_search_leads_relevance_scoring (st : St)
    (query search_type : String) (limit : ℕ) :
    (∀ (lead : Lead) (q : String),
      _calculate_relevance_score lead q
        = (if substrOf q (pyLower lead.company) then (10 : ℚ) else 0)
        + (if startsWithPy q (pyLower lead.company) then (5 : ℚ) else 0)
        + (if pyTruthy lead.name
              && substrOf q (pyLower (lead.name.getD "")) then (8 : ℚ) else 0)
        + (if pyTruthy lead.title
              && substrOf q (pyLower (lead.title.getD "")) then (6 : ℚ) else 0)
        + (if pyTruthy lead.email
              && substrOf q (pyLower (lead.email.getD "")) then (7 : ℚ) else 0)
        + (if pyTruthy lead.company_metadata
              && substrOf q (pyLower (lead.company_metadata.getD "")) then (4 : ℚ)
           else 0))
    ∧ (∀ r ∈ search_leads st query search_type limit,
        ∃ l ∈ st.leads, lead_matches search_type query l = true
          ∧ r.relevance_score = _calculate_relevance_score l (pyLower query)
          ∧ r.match_type = _get_match_type l (pyLower query))
    ∧ ((search_leads stC6 "acme" "company" 50).map
          (fun r => (r.id, r.relevance_score, r.match_type))
        = [(1, (15 : ℚ), "company")])
    ∧ List.Sorted byRelevanceLead (search_leads st query search_type limit) := by
  refine ⟨?_, ?_, by with_unfolding_all rfl, ?_⟩
  · intro lead q
    unfold _calculate_relevance_score
    by_cases hsub : substrOf q (pyLower lead.company) = true
    · rw [if_pos hsub, if_pos hsub]
    · rw [if_neg hsub, if_neg hsub]
      have hpre : ¬ startsWithPy q (pyLower lead.company) = true := by
        intro hp
        exact hsub (substrOf_of_startsWithPy hp)
      rw [if_neg hpre]
      ring
  · intro r hr
    unfold search_leads at hr
    rw [List.mem_insertionSort, List.mem_map] at hr
    obtain ⟨l, hl, rfl⟩ := hr
    have hl' := List.mem_of_mem_take hl
    rw [List.mem_filter] at hl'
    exact ⟨l, hl'.1, hl'.2, rfl, rfl⟩
  · unfold search_leads
    exact List.sorted_insertionSort byRelevanceLead _

/-- C6 witness: the per-result conjunct of the theorem applied to the one
concrete row of the scenario search. -/
theorem C6_search_leads_relevance_scoring_witness :
    ∃ l ∈ stC6.leads, lead_matches "company" "acme" l = true
      ∧ rC6.relevance_score = _calculate_relevance_score l (pyLower "acme")
      ∧ rC6.match_type = _get_match_type l (pyLower "acme") :=
  (C6_search_leads_relevance_scoring stC6 "acme" "company" 50).2.1 rC6
    (by rw [show search_leads stC6 "acme" "company" 50 = [rC6] from
          by with_unfolding_all rfl]
        exact List.mem_singleton_self _)

-- ---------------------------------------------------------------------------
-- `SearchService.search_company_metadata` and `search_activities`
-- ---------------------------------------------------------------------------

/-- One row of the `search_company_metadata` result list. -/
structure MetaSearchResult where
  lead_id : ℕ
  company : String
  field : String
  value : Json
  full_metadata : Json
  relevance_score : ℚ
deriving Repr

/-- The matches contributed by one lead's parsed metadata document:
with a (truthy) field filter, Python first evaluates `metadata_field in
metadata` (which can raise `TypeError` on non-container documents) and then
subscripts; without a filter it iterates `metadata.items()` (which raises
`AttributeError` on non-dict documents). -/
def meta_matches_for_lead (query_lower : String) (metadata_field : Option String)
    (l : Lead) (metadata : Json) : Except PyErr (List MetaSearchResult) :=
  if pyTruthy metadata_field then
    match pyContains metadata (metadata_field.getD "") with
    | .error e => .error e
    | .ok false => .ok []
    | .ok true =>
      match pySubscript metadata (metadata_field.getD "") with
      | .error e => .error e
      | .ok v =>
        if substrOf query_lower (pyLower (pyStr v)) then
          .ok [{ lead_id := l.id, company := l.company,
                 field := metadata_field.getD "", value := v,
                 full_metadata := metadata, relevance_score := 1 }]
        else .ok []
  else
    match jsonItems metadata with
    | .error e => .error e
    | .ok fs =>
      .ok (fs.filterMap (fun p =>
        if substrOf query_lower (pyLower (pyStr p.2)) then
          some { lead_id := l.id, company := l.company, field := p.1,
                 value := p.2, full_metadata := metadata, relevance_score := 1 }
        else none))

/-- One iteration of the `for lead in leads:` loop of
`search_company_metadata`: a falsy metadata column or a parse failure is a
`continue` (no matches). -/
def metaForLead (query_lower : String) (metadata_field : Option String)
    (l : Lead) : Except PyErr (List MetaSearchResult) :=
  if !(pyTruthy l.company_metadata) then .ok []
  else
    match jsonLoads (l.company_metadata.getD "") with
    | none => .ok []
    | some j => meta_matches_for_lead query_lower metadata_field l j

/-- The `for lead in leads:` loop of `search_company_metadata`, appending
each lead's matches in order. -/
def collectMetaMatches (query_lower : String) (metadata_field : Option String) :
    List Lead → Except PyErr (List MetaSearchResult)
  | [] => .ok []
  | l :: rest =>
    match metaForLead query_lower metadata_field l with
    | .error e => .error e
    | .ok here =>
      match collectMetaMatches query_lower metadata_field rest with
      | .error e => .error e
      | .ok more => .ok (here ++ more)

/-- `SearchService.search_company_metadata`: scan the leads whose metadata
column is non-null, collect per-field matches (each with flat relevance
1.0), sort by relevance, truncate to `limit`. -/
def search_company_metadata (st : St) (query : String)
    (metadata_field : Option String := none) (limit : ℕ := 50) :
    Except PyErr (List MetaSearchResult) :=
  match collectMetaMatches (pyLower query) metadata_field
      (st.leads.filter (fun l => l.company_metadata.isSome)) with
  | .error e => .error e
  | .ok results =>
    .ok ((results.insertionSort
      (fun a b => b.relevance_score ≤ a.relevance_score)).take limit)

-- ---------------------------------------------------------------------------
-- `create_lead` (`backend/app/routers/leads.py`)
-- ---------------------------------------------------------------------------

/-- `LeadCreate` request schema (`schemas.py`); `company_metadata` defaults
to an empty dict. -/
structure LeadCreate where
  company : String
  name : Option String := none
  title : Option String := none
  email : Option String := none
  phone : Option String := none
  website : Option String := none
  company_metadata : Option Json := some (Json.obj [])
deriving Repr

/-- Errors surfaced by `create_lead`. -/
inductive CreateErr where
  | validation (detail : String)
  | conflict (detail : String)
deriving Repr, DecidableEq

/-- `payload.name.strip() if payload.name else None`. -/
def stripOptField (o : Option String) : Option String :=
  if pyTruthy o then some (pyStrip (o.getD "")) else none

/-- `create_lead`: validate company, reject duplicates (case-insensitive
pre-check), serialise metadata with `json.dumps`, insert the row, log a
`lead_created` activity. -/
def create_lead (st : St) (payload : LeadCreate) :
    Except CreateErr (St × Lead) :=
  if pyStrip payload.company = "" then
    .error (.validation "Company name is required")
  else if (st.leads.any
      (fun l => ilikeEq (pyStrip payload.company) l.company)) then
    .error (.conflict ("Lead with company '" ++ payload.company
      ++ "' already exists"))
  else
    let m : Json :=
      if metaTruthy payload.company_metadata then
        payload.company_metadata.getD Json.null
      else Json.obj []
    let lead : Lead :=
      { id := st.nextLeadId
        company := pyStrip payload.company
        name := stripOptField payload.name
        title := stripOptField payload.title
        email := stripOptField payload.email
        phone := stripOptField payload.phone
        website := stripOptField payload.website
        company_metadata := some (dumps m)
        score := 0
        stage := .NEW
        created_at := st.now }
    let st1 : St := { st with leads := st.leads ++ [lead],
                              nextLeadId := st.nextLeadId + 1 }
    let st2 := (log_activity st1 lead.id "system" "lead_created"
      (some ("Lead created for " ++ lead.company ++ " - "
        ++ (if pyTruthy lead.name then lead.name.getD ""
            else "No contact name")))).1
    .ok (st2, lead)

/-- Empty database fixture for the C8 round trip. -/
def stC8 : St := { leads := [], activities := [] }

/-- The C8 payload: a lead with metadata `{"industry": "SaaS"}`. -/
def payloadC8 : LeadCreate :=
  { company := "Acme", company_metadata := some (Json.obj [("industry", Json.str "SaaS")]) }



/-- Every row produced by the per-lead metadata matcher has relevance 1. -/
theorem meta_matches_rel_one {ql : String} {f : Option String} {l : Lead}
    {j : Json} {out : List MetaSearchResult}
    (h : meta_matches_for_lead ql f l j = .ok out) :
    ∀ y ∈ out, y.relevance_score = 1 := by
  unfold meta_matches_for_lead at h
  repeat' split at h
  all_goals cases h
  all_goals intro y hy
  all_goals first
    | (rw [List.mem_singleton] at hy; subst hy; rfl)
    | (rw [List.mem_filterMap] at hy
       obtain ⟨p, -, hp⟩ := hy
       split at hp
       · simp only [Option.some.injEq] at hp
         subst hp
         rfl
       · cases hp)
    | simp at hy

/-- Every row produced for one lead of the loop has relevance 1. -/
theorem metaForLead_rel_one {ql : String} {f : Option String} {l : Lead}
    {out : List MetaSearchResult}
    (h : metaForLead ql f l = .ok out) :
    ∀ y ∈ out, y.relevance_score = 1 := by
  unfold metaForLead at h
  split at h
  · cases h
    intro y hy
    simp at hy
  · split at h
    · cases h
      intro y hy
      simp at hy
    · exact meta_matches_rel_one h

/-- Every row collected across leads has relevance 1. -/
theorem collectMetaMatches_rel_one {ql : String} {f : Option String} :
    ∀ {ls : List Lead} {acc : List MetaSearchResult},
      collectMetaMatches ql f ls = .ok acc →
      ∀ x ∈ acc, x.relevance_score = 1 := by
  intro ls
  induction ls with
  | nil =>
    intro acc hacc x hx
    cases hacc
    simp at hx
  | cons l rest ih =>
    intro acc hacc x hx
    unfold collectMetaMatches at hacc
    cases hhere : metaForLead ql f l with
    | error e => rw [hhere] at hacc; cases hacc
    | ok here =>
      rw [hhere] at hacc
      cases hmore : collectMetaMatches ql f rest with
      | error e => rw [hmore] at hacc; cases hacc
      | ok more =>
        rw [hmore] at hacc
        simp only [Except.ok.injEq] at hacc
        subst hacc
        rw [List.mem_append] at hx
        rcases hx with hx | hx
        · exact metaForLead_rel_one hhere x hx
        · exact ih hmore x hx

/-- The state and the lead produced by the C8 round-trip `create_lead`
call. -/
def createdC8 : St × Lead :=
  (create_lead stC8 payloadC8).toOption.getD (stC8, { id := 0, company := "" })

/-- C8: (1) every row any `searchMetadata` call returns (with or without a
field filter) carries the flat relevance score 1.0; (2) round trip:
creating a lead with metadata `{"industry":"SaaS"}` and then searching
"saas" with no field filter returns that lead with field "industry" and
relevance 1.0. -/
theorem C8_metadata_search_flat_relevance :
    (∀ (st : St) (query : String) (field : Option String) (limit : ℕ) res,
      search_company_metadata st query field limit = .ok res →
      ∀ r ∈ res, r.relevance_score = 1)
    ∧ create_lead stC8 payloadC8 = Except.ok createdC8
    ∧ createdC8.2.company_metadata = some "\x7b\x22industry\x22: \x22SaaS\x22\x7d"
    ∧ (search_company_metadata createdC8.1 "saas" none 50).map
        (List.map (fun r => (r.lead_id, r.field, r.value, r.relevance_score)))
      = Except.ok [(createdC8.2.id, "industry", Json.str "SaaS", (1 : ℚ))] := by
  refine ⟨?_, by with_unfolding_all rfl, by with_unfolding_all rfl,
    by with_unfolding_all rfl⟩
  intro st query field limit res hres r hr
  unfold search_company_metadata at hres
  cases hcoll : collectMetaMatches (pyLower query) field
      (st.leads.filter (fun l => l.company_metadata.isSome)) with
  | error e => rw [hcoll] at hres; cases hres
  | ok acc =>
    rw [hcoll] at hres
    cases hres
    have hr' := List.mem_of_mem_take hr
    rw [List.mem_insertionSort] at hr'
    exact collectMetaMatches_rel_one hcoll r hr'

/-- The rows of the C8 round-trip search. -/
def metaRowsC8 : List MetaSearchResult :=
  (search_company_metadata createdC8.1 "saas" none 50).toOption.getD []

/-- The single row of the C8 round-trip search. -/
def metaRowC8 : MetaSearchResult :=
  metaRowsC8.head?.getD ⟨0, "", "", Json.null, Json.null, 0⟩

/-- C8 witness: the flat-relevance conjunct applied to the concrete row of
the round-trip search. -/
theorem C8_metadata_search_flat_relevance_witness :
    metaRowC8.relevance_score = 1 :=
  C8_metadata_search_flat_relevance.1 createdC8.1 "saas" none 50 metaRowsC8
    (by with_unfolding_all rfl) metaRowC8
    (by rw [show metaRowsC8 = [metaRowC8] from by with_unfolding_all rfl]
        exact List.mem_singleton_self _)

-- ---------------------------------------------------------------------------
-- `SearchService.search_activities` (C9)
-- ---------------------------------------------------------------------------

/-- The `and_`/`or_` SQL filter of `search_activities`: any of
action/detail/actor matches the query (a NULL detail simply fails its
`ilike`), and, when a truthy `lead_id` is supplied, the activity must
belong to it. -/
def activity_matches (query : String) (lead_id : Option ℕ)
    (a : ActivityLog) : Bool :=
  (ilikeContains query a.action
    || (a.detail.map (ilikeContains query)).getD false
    || ilikeContains query a.actor)
  && (match lead_id with
      | some lid => if lid ≠ 0 then a.lead_id == lid else true
      | none => true)

/-- Order a list of activities by `created_at` descending (the
`order_by(...desc())` of the queries). -/
def sortActivitiesDesc (l : List ActivityLog) : List ActivityLog :=
  l.insertionSort (fun a b => b.created_at ≤ a.created_at)

/-- `SearchService._calculate_activity_relevance`: scores action (+5),
detail (+10) and actor (+3) matches, but calls `.lower()` on `detail`
unconditionally, so a NULL detail raises `AttributeError`. -/
def _calculate_activity_relevance (a : ActivityLog) (query : String) :
    Except PyErr ℚ :=
  match a.detail with
  | none => .error .attributeError
  | some d =>
    .ok ((if substrOf query (pyLower a.action) then (5 : ℚ) else 0)
      + (if substrOf query (pyLower d) then 10 else 0)
      + (if substrOf query (pyLower a.actor) then 3 else 0))

/-- `SearchService._get_activity_match_type`: an action match returns
before `detail` is touched; otherwise a NULL detail raises
`AttributeError`. -/
def _get_activity_match_type (a : ActivityLog) (query : String) :
    Except PyErr String :=
  if substrOf query (pyLower a.action) then .ok "action"
  else
    match a.detail with
    | none => .error .attributeError
    | some d =>
      if substrOf query (pyLower d) then .ok "detail"
      else if substrOf query (pyLower a.actor) then .ok "actor"
      else .ok "unknown"

/-- One row of the `search_activities` result list; `detail` holds the
parsed JSON payload when the stored detail looks like JSON, otherwise the
raw string. -/
structure ActivitySearchResult where
  id : ℕ
  lead_id : ℕ
  lead_company : String
  actor : String
  action : String
  detail : Option Json
  created_at : ℕ
  relevance_score : ℚ
  match_type : String
deriving Repr

/-- `detail_parsed`: parse the stored detail when it starts with `{` and
parses as JSON; otherwise keep the raw string. -/
def parseActivityDetail (detail : Option String) : Option Json :=
  match detail with
  | none => none
  | some d =>
    if startsWithPy "\x7b" d then
      match jsonLoads d with
      | some j => some j
      | none => some (Json.str d)
    else some (Json.str d)

/-- The result-building loop of `search_activities`; the relevance
computation can raise on a NULL detail, which aborts the whole search. -/
def collectActivityRows (st : St) (query_lower : String) :
    List ActivityLog → Except PyErr (List ActivitySearchResult)
  | [] => .ok []
  | a :: rest =>
    match _calculate_activity_relevance a query_lower with
    | .error e => .error e
    | .ok rel =>
      match _get_activity_match_type a query_lower with
      | .error e => .error e
      | .ok mt =>
        match collectActivityRows st query_lower rest with
        | .error e => .error e
        | .ok more =>
          .ok ({ id := a.id
                 lead_id := a.lead_id
                 lead_company :=
                   match st.getLead a.lead_id with
                   | some l => l.company
                   | none => "Unknown"
                 actor := a.actor
                 action := a.action
                 detail := parseActivityDetail a.detail
                 created_at := a.created_at
                 relevance_score := rel
                 match_type := mt } :: more)

/-- `SearchService.search_activities`: filter, order by `created_at`
descending, limit, build rows (which can raise `AttributeError`), then
sort by relevance descending. -/
def search_activities (st : St) (query : String)
    (lead_id : Option ℕ := none) (limit : ℕ := 50) :
    Except PyErr (List ActivitySearchResult) :=
  match collectActivityRows st (pyLower query)
      ((sortActivitiesDesc
        (st.activities.filter (activity_matches query lead_id))).take limit) with
  | .error e => .error e
  | .ok results =>
    .ok (results.insertionSort
      (fun a b => b.relevance_score ≤ a.relevance_score))

/-- C9 fixture: one lead with one activity whose `detail` is NULL but whose
`action` contains "qual". -/
def actC9 : ActivityLog :=
  { id := 1, lead_id := 1, actor := "system",
    action := "qualification_completed", detail := none }

/-- C9 fixture state. -/
def stC9 : St :=
  { leads := [{ id := 1, company := "TestCo" }], activities := [actC9] }

/-- The only exception the row-building loop can raise is the
`AttributeError` from `detail.lower()` on a NULL detail. -/
theorem collectActivityRows_error_attr {st : St} {ql : String} :
    ∀ {acts : List ActivityLog} {e : PyErr},
      collectActivityRows st ql acts = .error e → e = PyErr.attributeError := by
  intro acts
  induction acts with
  | nil => intro e h; cases h
  | cons a rest ih =>
    intro e h
    unfold collectActivityRows at h
    cases hrel : _calculate_activity_relevance a ql with
    | error e1 =>
      rw [hrel] at h
      cases h
      unfold _calculate_activity_relevance at hrel
      repeat' split at hrel
      all_goals cases hrel
      all_goals rfl
    | ok rel =>
      rw [hrel] at h
      cases hmt : _get_activity_match_type a ql with
      | error e2 =>
        rw [hmt] at h
        cases h
        unfold _get_activity_match_type at hmt
        repeat' split at hmt
        all_goals cases hmt
        all_goals rfl
      | ok mt =>
        rw [hmt] at h
        cases hmore : collectActivityRows st ql rest with
        | error e3 =>
          rw [hmore] at h
          cases h
          exact ih hmore
        | ok more => rw [hmore] at h; cases h

/-- C9: the data model declares `detail` optional, and the stored activity
matches the query "qual" through its `action`, yet `searchActivities`
raises `AttributeError` (from `detail.lower()` on `None`) instead of
returning a result list — the search is total only when every matched
activity has a non-null detail. -/
theorem C9_search_activities_crashes_on_null_detail :
    actC9.detail = none
    ∧ activity_matches "qual" none actC9 = true
    ∧ search_activities stC9 "qual" none 50
        = Except.error PyErr.attributeError
    ∧ (∀ (st : St) (query : String) (lid : Option ℕ) (limit : ℕ) e,
        search_activities st query lid limit = .error e →
        e = PyErr.attributeError) := by
  refine ⟨rfl, by with_unfolding_all rfl, by with_unfolding_all rfl, ?_⟩
  intro st query lid limit e h
  unfold search_activities at h
  cases hrows : collectActivityRows st (pyLower query)
      ((sortActivitiesDesc
        (st.activities.filter (activity_matches query lid))).take limit) with
  | ok rows => rw [hrows] at h; cases h
  | error e' =>
    rw [hrows] at h
    cases h
    exact collectActivityRows_error_attr hrows

-- ---------------------------------------------------------------------------
-- `qualify` and `generate_outreach` (`backend/app/routers/leads.py`)
-- ---------------------------------------------------------------------------

/-- The greedy regex `re.search(r"(\{.*\})", text, re.S)`: the match runs
from the first `{` to the last `}` of the text, provided that `}` comes
after the `{`. -/
def extractBraces (s : String) : Option String :=
  let cs := s.data
  match cs.findIdx? (fun c => c = '{'), cs.reverse.findIdx? (fun c => c = '}') with
  | some i, some jr =>
    let j := cs.length - 1 - jr
    if i < j then some (String.mk ((cs.drop i).take (j - i + 1))) else none
  | _, _ => none

/-- The two-stage parse shared by `qualify` and `generate_outreach`: try
the whole text, else extract the brace-delimited region and try that. -/
def twoStageParse (loads : String → Option Json) (text : String) :
    Option Json :=
  match loads text with
  | some p => some p
  | none =>
    match extractBraces text with
    | some sub => loads sub
    | none => none

/-- `QualificationRequest` schema (`schemas.py`); `scoring_weights`
defaults to an empty dict. -/
structure QualificationRequest where
  lead_id : ℕ
  scoring_weights : Option (List (String × ℚ)) := some []
deriving Repr

/-- The error classes a router call can surface, following the spec's
taxonomy: 400 validation, 404 not-found, 502 from the external call
(`ServiceError`), 502 from response parsing (`ParseError`), and the
generic 500 from an uncaught exception. -/
inductive QErr where
  | validation (detail : String)
  | notFound (detail : String)
  | serviceError (detail : String)
  | parseError (detail : String)
  | internal (detail : String)
deriving Repr, DecidableEq

/-- The success payload of `qualify`. -/
structure QualifyResponse where
  lead_id : ℕ
  score : ℚ
  stage : PipelineStage
  grok_output : Json
deriving Repr

/-- `if req.scoring_weights:` — `None` and `{}` are falsy. -/
def weightsTruthy : Option (List (String × ℚ)) → Bool
  | none => false
  | some ws => !ws.isEmpty

/-- The qualification-completed logging step (wrapped in `try/except`, so a
`TypeError` from slicing a non-sliceable `justification` merely skips the
log entry). -/
def qualificationLogState (st1 : St) (lead : Lead) (score : ℚ)
    (parsed : Json) : St :=
  match pyGet parsed "justification" (Json.str "No justification provided") with
  | .error _ => st1
  | .ok j =>
    let breakdown :=
      match pyGet parsed "breakdown" (Json.obj []) with
      | .ok b => b
      | .error _ => Json.obj []
    match j with
    | Json.str s =>
      (log_activity st1 lead.id "system" "qualification_completed"
        (some ("AI qualification completed with score " ++ renderNum score
          ++ "/100. Analysis: " ++ pyTake 100 s
          ++ (if 100 < s.length then "..." else "")))
        (some (Json.obj [("score", Json.num score),
          ("justification", Json.str s), ("breakdown", breakdown)]))).1
    | Json.arr xs =>
      (log_activity st1 lead.id "system" "qualification_completed"
        (some ("AI qualification completed with score " ++ renderNum score
          ++ "/100. Analysis: " ++ pyRepr (Json.arr (xs.take 100))
          ++ (if 100 < xs.length then "..." else "")))
        (some (Json.obj [("score", Json.num score),
          ("justification", Json.arr xs), ("breakdown", breakdown)]))).1
    | _ => st1

/-- The `/leads/qualify` endpoint, parameterised by `json.loads` and by the
auto-progression step (whose exceptions the endpoint swallows). The
returned state is the committed database state (errors raise before any
commit, so they return the input state). -/
def qualifyWith (loads : String → Option Json)
    (auto : St → ℕ → ℚ → Except String (St × Lead))
    (st : St) (req : QualificationRequest) (grok : Except String String) :
    St × Except QErr QualifyResponse :=
  if req.lead_id = 0 then
    (st, .error (.validation "Valid lead_id is required"))
  else
    match st.getLead req.lead_id with
    | none => (st, .error (.notFound ("Lead with ID " ++ toString req.lead_id
        ++ " not found")))
    | some lead =>
      match (if weightsTruthy req.scoring_weights then
          (req.scoring_weights.getD []).find? (fun p => p.2 < 1 ∨ 10 < p.2)
        else none) with
      | some p => (st, .error (.validation ("Scoring weight for '" ++ p.1
          ++ "' must be a number between 1 and 10")))
      | none =>
        match grok with
        | .error e => (st, .error (.serviceError
            ("AI qualification service error: " ++ e)))
        | .ok raw =>
          let text := pyStrip raw
          match twoStageParse loads text with
          | none => (st, .error (.parseError
              ("AI returned invalid response format. Response preview: "
                ++ pyTake 200 text)))
          | some parsed =>
            match pyContains parsed "score" with
            | .error _ => (st, .error (.internal
                "Internal server error during qualification"))
            | .ok false => (st, .error (.parseError
                "AI response missing required score field"))
            | .ok true =>
              match pyGet parsed "score" (Json.num 0) with
              | .error _ => (st, .error (.internal
                  "Internal server error during qualification"))
              | .ok v =>
                match pyFloat v with
                | .error _ => (st, .error (.parseError
                    "AI returned invalid score format"))
                | .ok score =>
                  -- an out-of-range score only logs a warning
                  let lead1 := { lead with score := score }
                  let st1 := st.putLead lead1
                  let st2 := qualificationLogState st1 lead score parsed
                  match auto st2 lead.id score with
                  | .ok (st3, updated) =>
                    (st3, .ok { lead_id := updated.id, score := updated.score,
                                stage := updated.stage, grok_output := parsed })
                  | .error _ =>
                    (st2, .ok { lead_id := lead1.id, score := lead1.score,
                                stage := lead1.stage, grok_output := parsed })

/-- The endpoint as deployed: Python's `json.loads` and the real
auto-progression. -/
def qualify (st : St) (req : QualificationRequest)
    (grok : Except String String) : St × Except QErr QualifyResponse :=
  qualifyWith jsonLoads auto_progress_after_qualification st req grok

/-- The success payload of `generate_outreach`. -/
structure OutreachResponse where
  lead_id : ℕ
  outreach : Json
deriving Repr

/-- The synthesized fallback outreach object. -/
def outreachFallback (text : String) : Json :=
  Json.obj [("subject", Json.str "Hey"),
            ("body", Json.str (pyTake 500 text)),
            ("tags", Json.arr [])]

/-- The outreach parse: direct parse, else brace extraction, else the
synthesized fallback (this parse never fails). -/
def outreachParse (loads : String → Option Json) (text : String) : Json :=
  match loads text with
  | some p => p
  | none =>
    match extractBraces text with
    | some sub =>
      match loads sub with
      | some p => p
      | none => outreachFallback text
    | none => outreachFallback text

/-- All-strings check for `", ".join(tags)`. -/
def allStrings : List Json → Option (List String)
  | [] => some []
  | Json.str s :: rest => (allStrings rest).map (s :: ·)
  | _ => none

/-- Python `", ".join(tags)`: joins a list of strings (TypeError on
non-string elements or non-iterable values); a string is joined
character-wise. -/
def joinTags : Json → Except PyErr String
  | Json.arr xs =>
    match allStrings xs with
    | some ss => .ok (String.intercalate ", " ss)
    | none => .error .typeError
  | Json.str s => .ok (String.intercalate ", " (s.data.map String.singleton))
  | _ => .error .typeError

/-- The `/leads/outreach/{lead_id}` endpoint, parameterised by
`json.loads`. Uncaught Python exceptions (e.g. `.get` on a non-dict parse
result) surface as a generic 500, never as a 502 `ServiceError`. -/
def generate_outreach_with (loads : String → Option Json) (st : St)
    (lead_id : ℕ) (tone : String := "friendly")
    (goal : String := "book a meeting") (grok : Except String String) :
    St × Except QErr OutreachResponse :=
  match st.getLead lead_id with
  | none => (st, .error (.notFound "lead not found"))
  | some lead =>
    match grok with
    | .error e => (st, .error (.serviceError e))
    | .ok text =>
      let parsed := outreachParse loads text
      match pyGet parsed "subject" (Json.str "No subject") with
      | .error _ => (st, .error (.internal "Internal Server Error"))
      | .ok subject =>
        match pyGet parsed "body" (Json.str "No message content") with
        | .error _ => (st, .error (.internal "Internal Server Error"))
        | .ok bodyv =>
          match pySlice 100 bodyv with
          | .error _ => (st, .error (.internal "Internal Server Error"))
          | .ok _preview =>
            match pyGet parsed "tags" (Json.arr []) with
            | .error _ => (st, .error (.internal "Internal Server Error"))
            | .ok tags =>
              match (if jsonTruthy tags then joinTags tags
                     else .ok "No tags") with
              | .error _ => (st, .error (.internal "Internal Server Error"))
              | .ok tags_text =>
                let clean := "AI-generated outreach message created. Subject: '"
                  ++ pyStr subject ++ "'. Tags: " ++ tags_text
                let bodyForMeta :=
                  match pyGet parsed "body" (Json.str "") with
                  | .ok b => b
                  | .error _ => Json.str ""
                let st2 := (log_activity st lead.id "system"
                  "outreach_generated" (some clean)
                  (some (Json.obj [("subject", subject),
                    ("body", bodyForMeta), ("tags", tags)]))).1
                (st2, .ok { lead_id := lead.id, outreach := parsed })

/-- The endpoint as deployed, with Python's `json.loads`. -/
def generate_outreach (st : St) (lead_id : ℕ)
    (tone : String := "friendly") (goal : String := "book a meeting")
    (grok : Except String String) : St × Except QErr OutreachResponse :=
  generate_outreach_with jsonLoads st lead_id tone goal grok

/-- C7: when the external call succeeds but neither parse stage succeeds,
`generateOutreach` does not fail: it returns the synthesized
`{subject: "Hey", body: text[:500], tags: []}`; and across all inputs a
`ServiceError` is only ever produced when the external call itself
failed. -/
theorem C7_outreach_falls_back_on_total_parse_failure
    (loads : String → Option Json) (st : St) (lead_id : ℕ)
    (tone goal text : String) (lead : Lead)
    (h : st.getLead lead_id = some lead)
    (hdirect : loads text = none)
    (hextract : (extractBraces text).bind loads = none) :
    (∃ st', generate_outreach_with loads st lead_id tone goal (Except.ok text)
        = (st', .ok
            { lead_id := lead.id
              outreach := Json.obj [("subject", Json.str "Hey"),
                ("body", Json.str (pyTake 500 text)),
                ("tags", Json.arr [])] }))
    ∧ (∀ (st₂ : St) (lid : ℕ) (t g : String) (grok : Except String String)
        (msg : String),
        (generate_outreach_with loads st₂ lid t g grok).2
          = .error (.serviceError msg) →
        ∃ e, grok = .error e) := by
  constructor
  · have hp : outreachParse loads text = outreachFallback text := by
      unfold outreachParse
      cases he : extractBraces text with
      | none => simp [hdirect, he]
      | some sub =>
        have hsub : loads sub = none := by
          rw [he] at hextract
          simpa using hextract
        simp [hdirect, he, hsub]
    refine ⟨(generate_outreach_with loads st lead_id tone goal
      (Except.ok text)).1, ?_⟩
    rw [Prod.ext_iff]
    refine ⟨rfl, ?_⟩
    simp only [generate_outreach_with, h, hp]
    rfl
  · intro st₂ lid t g grok msg hserr
    unfold generate_outreach_with at hserr
    cases hga : st₂.getLead lid with
    | none => simp [hga] at hserr
    | some lead' =>
      simp only [hga] at hserr
      cases grok with
      | error e => exact ⟨e, rfl⟩
      | ok txt =>
        repeat' split at hserr
        all_goals simp_all

/-- C7 fixture. -/
def stC7 : St := { leads := [{ id := 1, company := "OutCo" }], activities := [] }

/-- C7 witness: the fallback conjunct at a concrete unparseable response
("total garbage" has no brace region at all). -/
theorem C7_outreach_falls_back_on_total_parse_failure_witness :
    ∃ st', generate_outreach_with jsonLoads stC7 1 "friendly" "book a meeting"
        (Except.ok "total garbage")
      = (st', .ok
          { lead_id := 1
            outreach := Json.obj [("subject", Json.str "Hey"),
              ("body", Json.str (pyTake 500 "total garbage")),
              ("tags", Json.arr [])] }) :=
  (C7_outreach_falls_back_on_total_parse_failure jsonLoads stC7 1 "friendly"
    "book a meeting" "total garbage" { id := 1, company := "OutCo" }
    (by rfl) (by rfl) (by rfl)).1

/-- `"score" in parsed` on a dict agrees with association-list lookup. -/
theorem pyContains_obj_eq_find (fs : List (String × Json)) (k : String) :
    pyContains (Json.obj fs) k
      = .ok ((fs.find? (fun p => p.1 = k)).isSome) := by
  show (Except.ok (fs.any fun p => decide (p.1 = k)) : Except PyErr Bool)
    = .ok ((fs.find? (fun p => p.1 = k)).isSome)
  congr 1
  rw [Bool.eq_iff_iff]
  simp [List.any_eq_true, List.find?_isSome]

/-- C4 fixture: a single lead. -/
def stC4 : St := { leads := [{ id := 1, company := "ParseCo" }], activities := [] }

/-- C4 fixture request (default empty weights). -/
def reqC4 : QualificationRequest := { lead_id := 1 }

/-- C4 (counterexample): the response text "5" parses directly (to the
number 5), and that parse result has no score field, so the claim's
condition predicts a ParseError — but `"score" not in 5` raises
`TypeError`, which falls through to the generic 500 handler: `qualify`
fails with an internal error, not a ParseError. -/
theorem C4_counterexample :
    jsonLoads "5" = some (Json.num 5)
    ∧ (qualify stC4 reqC4 (Except.ok "5")).2
        = Except.error (QErr.internal "Internal server error during qualification")
    ∧ ∀ msg, (qualify stC4 reqC4 (Except.ok "5")).2
        ≠ Except.error (QErr.parseError msg) := by
  refine ⟨by rfl, by with_unfolding_all rfl, ?_⟩
  intro msg hmsg
  rw [(by with_unfolding_all rfl :
    (qualify stC4 reqC4 (Except.ok "5")).2
      = Except.error (QErr.internal "Internal server error during qualification"))] at hmsg
  simp at hmsg

/-- C4 (amended): for an existing lead with valid request data, and
provided the two-stage parse result (when it exists) is a JSON object,
`qualify` fails with a ParseError exactly when the response text parses
neither directly nor via brace extraction, or the parsed object has no
"score" entry, or its "score" value cannot be coerced by `float()`; the
unparseable-text error carries a preview of at most 200 characters; any
coercible numeric score — including values outside [0,100] — is accepted;
and whenever a ParseError is produced the stored state is unchanged.
(Without the object proviso the "exactly when" direction fails: a
response like "5" parses to a non-object and produces a 500 instead, see
the counterexample.) -/
theorem C4_qualify_parse_error_conditions
    (loads : String → Option Json) (st : St) (req : QualificationRequest)
    (text : String) (lead : Lead)
    (h : st.getLead req.lead_id = some lead)
    (hid : req.lead_id ≠ 0)
    (hw : (if weightsTruthy req.scoring_weights then
        (req.scoring_weights.getD []).find? (fun p => p.2 < 1 ∨ 10 < p.2)
      else none) = none)
    (hobj : ∀ j, twoStageParse loads (pyStrip text) = some j →
      ∃ fs, j = Json.obj fs) :
    ((∃ msg, (qualifyWith loads auto_progress_after_qualification st req
        (Except.ok text)).2 = .error (.parseError msg))
      ↔ (twoStageParse loads (pyStrip text) = none
        ∨ (∃ fs, twoStageParse loads (pyStrip text) = some (Json.obj fs)
            ∧ fs.find? (fun p => p.1 = "score") = none)
        ∨ (∃ fs kv, twoStageParse loads (pyStrip text) = some (Json.obj fs)
            ∧ fs.find? (fun p => p.1 = "score") = some kv
            ∧ ∀ q : ℚ, pyFloat kv.2 ≠ .ok q)))
    ∧ (twoStageParse loads (pyStrip text) = none →
        (qualifyWith loads auto_progress_after_qualification st req
            (Except.ok text)).2 = .error (.parseError
          ("AI returned invalid response format. Response preview: "
            ++ pyTake 200 (pyStrip text)))
        ∧ (pyTake 200 (pyStrip text)).length ≤ 200)
    ∧ (∀ fs kv q, twoStageParse loads (pyStrip text) = some (Json.obj fs) →
        fs.find? (fun p => p.1 = "score") = some kv → pyFloat kv.2 = .ok q →
        ∃ resp, (qualifyWith loads auto_progress_after_qualification st req
          (Except.ok text)).2 = .ok resp)
    ∧ ((∃ msg, (qualifyWith loads auto_progress_after_qualification st req
          (Except.ok text)).2 = .error (.parseError msg)) →
        (qualifyWith loads auto_progress_after_qualification st req
          (Except.ok text)).1 = st) := by
  have hlen : (pyTake 200 (pyStrip text)).length ≤ 200 := by
    show ((pyStrip text).data.take 200).length ≤ 200
    exact List.length_take_le 200 _
  cases hp : twoStageParse loads (pyStrip text) with
  | none =>
    have hres : qualifyWith loads auto_progress_after_qualification st req
        (Except.ok text)
        = (st, .error (.parseError
          ("AI returned invalid response format. Response preview: "
            ++ pyTake 200 (pyStrip text)))) := by
      simp only [qualifyWith, if_neg hid, h, hw, hp]
    refine ⟨⟨fun _ => Or.inl rfl, fun _ => ⟨_, by rw [hres]⟩⟩,
      fun _ => ⟨by rw [hres], hlen⟩, ?_, fun _ => by rw [hres]⟩
    intro fs kv q hp' _ _
    cases hp'
  | some parsed =>
    obtain ⟨fs, rfl⟩ := hobj parsed hp
    have hcont := pyContains_obj_eq_find fs "score"
    cases hfind : fs.find? (fun p => p.1 = "score") with
    | none =>
      have hc : pyContains (Json.obj fs) "score" = .ok false := by
        rw [hcont, hfind]
        rfl
      have hres : qualifyWith loads auto_progress_after_qualification st req
          (Except.ok text)
          = (st, .error (.parseError "AI response missing required score field")) := by
        simp only [qualifyWith, if_neg hid, h, hw, hp, hc]
      refine ⟨⟨fun _ => Or.inr (Or.inl ⟨fs, rfl, hfind⟩),
        fun _ => ⟨_, by rw [hres]⟩⟩,
        fun hnone => ?_, ?_, fun _ => by rw [hres]⟩
      · cases hnone
      · intro fs' kv q hp' hfind' _
        cases hp'
        rw [hfind] at hfind'
        cases hfind'
    | some kv =>
      have hc : pyContains (Json.obj fs) "score" = .ok true := by
        rw [hcont, hfind]
        rfl
      have hg : pyGet (Json.obj fs) "score" (Json.num 0) = .ok kv.2 := by
        show Except.ok (((fs.find? (fun p => p.1 = "score")).map Prod.snd).getD
          (Json.num 0)) = .ok kv.2
        rw [hfind]
        rfl
      cases hfl : pyFloat kv.2 with
      | error e =>
        have hres : qualifyWith loads auto_progress_after_qualification st req
            (Except.ok text)
            = (st, .error (.parseError "AI returned invalid score format")) := by
          simp only [qualifyWith, if_neg hid, h, hw, hp, hc, hg, hfl]
        refine ⟨⟨fun _ => Or.inr (Or.inr ⟨fs, kv, rfl, hfind,
            fun q hq => by rw [hfl] at hq; cases hq⟩),
          fun _ => ⟨_, by rw [hres]⟩⟩,
          fun hnone => ?_, ?_, fun _ => by rw [hres]⟩
        · cases hnone
        · intro fs' kv' q hp' hfind' hfl'
          cases hp'
          rw [hfind] at hfind'
          cases hfind'
          rw [hfl] at hfl'
          cases hfl'
      | ok score =>
        have hok : ∃ resp, (qualifyWith loads
            auto_progress_after_qualification st req (Except.ok text)).2
            = .ok resp := by
          simp only [qualifyWith, if_neg hid, h, hw, hp, hc, hg, hfl]
          cases hauto : auto_progress_after_qualification
              (qualificationLogState
                (st.putLead { lead with score := score }) lead score
                (Json.obj fs)) lead.id score with
          | ok p => exact ⟨_, rfl⟩
          | error e => exact ⟨_, rfl⟩
        obtain ⟨resp, hresp⟩ := hok
        refine ⟨⟨?_, ?_⟩, fun hnone => ?_, fun _ _ _ _ _ _ => ⟨resp, hresp⟩, ?_⟩
        · rintro ⟨msg, hmsg⟩
          rw [hresp] at hmsg
          cases hmsg
        · rintro (hnone | ⟨fs', hfs', hfind'⟩ | ⟨fs', kv', hfs', hfind', hq⟩)
          · cases hnone
          · cases hfs'
            rw [hfind] at hfind'
            cases hfind'
          · cases hfs'
            rw [hfind] at hfind'
            cases hfind'
            exact absurd hfl (hq score)
        · cases hnone
        · rintro ⟨msg, hmsg⟩
          rw [hresp] at hmsg
          cases hmsg

/-- C4 witness: the acceptance conjunct at the concrete response
`{"score": 150}` — an out-of-range numeric score is accepted, not
rejected. -/
theorem C4_qualify_parse_error_conditions_witness :
    ∃ resp, (qualifyWith jsonLoads auto_progress_after_qualification stC4
        reqC4 (Except.ok "\x7b\x22score\x22: 150\x7d")).2 = .ok resp :=
  (C4_qualify_parse_error_conditions jsonLoads stC4 reqC4
      "\x7b\x22score\x22: 150\x7d" { id := 1, company := "ParseCo" }
      (by rfl) (by decide) (by rfl)
      (fun j hj => by
        rw [(by with_unfolding_all rfl :
          twoStageParse jsonLoads (pyStrip "\x7b\x22score\x22: 150\x7d")
            = some (Json.obj [("score", Json.num 150)]))] at hj
        exact ⟨_, (Option.some.inj hj).symm⟩)).2.2.1
    [("score", Json.num 150)] ("score", Json.num 150) 150
    (by with_unfolding_all rfl) (by rfl) (by rfl)

/-- Replacing a lead row by id makes the row the result of a subsequent
lookup of that id. -/
theorem find_map_put {ls : List Lead} {i : ℕ} {lead l' : Lead}
    (h : ls.find? (fun l => l.id = i) = some lead) (hid : l'.id = lead.id) :
    (ls.map (fun x => if x.id = l'.id then l' else x)).find?
      (fun l => l.id = i) = some l' := by
  have hlid : lead.id = i := by
    have := List.find?_some h
    simpa using this
  induction ls with
  | nil => cases h
  | cons x rest ih =>
    by_cases hx : x.id = i
    · rw [List.find?_cons_of_pos _ (by simpa using hx)] at h
      injection h with h'
      subst h'
      rw [List.map_cons, if_pos (by rw [hid])]
      exact List.find?_cons_of_pos _ (by simpa using hid.trans hlid)
    · rw [List.find?_cons_of_neg _ (by simpa using hx)] at h
      rw [List.map_cons, if_neg (by
        rw [hid, hlid]
        exact fun hcontra => hx hcontra)]
      rw [List.find?_cons_of_neg _ (by simpa using hx)]
      exact ih h

/-- `St.getLead` after `St.putLead` with an id-preserving update. -/
theorem getLead_putLead {st : St} {i : ℕ} {lead l' : Lead}
    (h : st.getLead i = some lead) (hid : l'.id = lead.id) :
    (st.putLead l').getLead i = some l' :=
  find_map_put h hid

/-- The qualification logging step never touches the leads table. -/
theorem qualificationLogState_leads (st1 : St) (lead : Lead) (score : ℚ)
    (parsed : Json) :
    (qualificationLogState st1 lead score parsed).leads = st1.leads := by
  unfold qualificationLogState
  repeat' split
  all_goals rfl

/-- C10: when the score was parsed successfully and auto-progression
raises (any failing auto-progression step), `qualify` swallows the
exception and still returns a success response carrying the updated score
and the lead's pre-progression stage; the persisted state keeps the
updated score. The failure is never surfaced to the caller. -/
theorem C10_qualify_swallows_auto_progress_failure
    (loads : String → Option Json)
    (autoF : St → ℕ → ℚ → Except String (St × Lead))
    (st : St) (req : QualificationRequest) (text : String) (lead : Lead)
    (parsed : Json) (v : Json) (score : ℚ)
    (h : st.getLead req.lead_id = some lead)
    (hid : req.lead_id ≠ 0)
    (hw : (if weightsTruthy req.scoring_weights then
        (req.scoring_weights.getD []).find? (fun p => p.2 < 1 ∨ 10 < p.2)
      else none) = none)
    (hp : twoStageParse loads (pyStrip text) = some parsed)
    (hc : pyContains parsed "score" = .ok true)
    (hg : pyGet parsed "score" (Json.num 0) = .ok v)
    (hf : pyFloat v = .ok score)
    (hfail : ∀ a b c, ∃ e, autoF a b c = Except.error e) :
    (qualifyWith loads autoF st req (Except.ok text)).2
      = Except.ok { lead_id := lead.id, score := score, stage := lead.stage,
                    grok_output := parsed }
    ∧ (qualifyWith loads autoF st req (Except.ok text)).1.getLead req.lead_id
      = some { lead with score := score } := by
  obtain ⟨e, he⟩ := hfail
    (qualificationLogState (st.putLead { lead with score := score }) lead
      score parsed) lead.id score
  have hres : qualifyWith loads autoF st req (Except.ok text)
      = (qualificationLogState (st.putLead { lead with score := score }) lead
          score parsed,
         Except.ok { lead_id := lead.id, score := score, stage := lead.stage,
                     grok_output := parsed }) := by
    simp only [qualifyWith, if_neg hid, h, hw, hp, hc, hg, hf, he]
  rw [hres]
  refine ⟨rfl, ?_⟩
  show (qualificationLogState (st.putLead { lead with score := score }) lead
    score parsed).getLead req.lead_id = some { lead with score := score }
  unfold St.getLead
  rw [qualificationLogState_leads]
  exact getLead_putLead h rfl

/-- C10 fixture. -/
def stC10 : St := { leads := [{ id := 1, company := "SwallowCo" }], activities := [] }

/-- C10 witness: with a response `{"score": 85}` and an auto-progression
that always fails, qualify still answers success with score 85 and the
pre-progression stage `New`, and the stored lead keeps score 85. -/
theorem C10_qualify_swallows_auto_progress_failure_witness :
    (qualifyWith jsonLoads (fun _ _ _ => Except.error "db down") stC10
        { lead_id := 1 } (Except.ok "\x7b\x22score\x22: 85\x7d")).2
      = Except.ok { lead_id := 1, score := 85, stage := PipelineStage.NEW,
                    grok_output := Json.obj [("score", Json.num 85)] }
    ∧ (qualifyWith jsonLoads (fun _ _ _ => Except.error "db down") stC10
        { lead_id := 1 } (Except.ok "\x7b\x22score\x22: 85\x7d")).1.getLead 1
      = some { id := 1, company := "SwallowCo", score := 85 } :=
  C10_qualify_swallows_auto_progress_failure jsonLoads
    (fun _ _ _ => Except.error "db down") stC10 { lead_id := 1 }
    "\x7b\x22score\x22: 85\x7d" { id := 1, company := "SwallowCo" }
    (Json.obj [("score", Json.num 85)]) (Json.num 85) 85
    (by rfl) (by decide) (by rfl) (by with_unfolding_all rfl) (by rfl)
    (by rfl) (by rfl) (fun a b c => ⟨"db down", rfl⟩)

-- ---------------------------------------------------------------------------
-- Activity pruning: `cleanup_old_activities` (router) and the candidate
-- selections of `scripts/cleanup_activities.py` (C5)
-- ---------------------------------------------------------------------------

/-- The age-based candidates: activities with `created_at < cutoff`. -/
def old_activities_by_date (st : St) (cutoff : ℕ) : List ActivityLog :=
  st.activities.filter (fun a => a.created_at < cutoff)

/-- The per-lead count-based candidates: everything beyond the
`keep_recent_per_lead` most recent (by `created_at` descending) of each
lead's activities. -/
def old_activities_by_count (st : St) (keep_recent_per_lead : ℕ) :
    List ActivityLog :=
  st.leads.bind (fun lead =>
    let activities := sortActivitiesDesc
      (st.activities.filter (fun a => a.lead_id == lead.id))
    if keep_recent_per_lead < activities.length then
      activities.drop keep_recent_per_lead
    else [])

/-- First-occurrence deduplication by activity id (the
`all_old_activity_ids` set walk of the router). -/
def dedupByIdAux : List ActivityLog → List ℕ → List ActivityLog
  | [], _ => []
  | a :: rest, seen =>
    if a.id ∈ seen then dedupByIdAux rest seen
    else a :: dedupByIdAux rest (a.id :: seen)

/-- `dedupById l` keeps the first activity of each id, in order. -/
def dedupById (l : List ActivityLog) : List ActivityLog := dedupByIdAux l []

/-- The result of the cleanup endpoint: a dry-run report or a deletion
count. -/
inductive CleanupResult where
  | dryRun (old_by_date old_by_count total : ℕ) (preview : List ActivityLog)
  | deleted (count : ℕ)
deriving Repr, DecidableEq

/-- The `/leads/activities/cleanup` endpoint (`cleanup_old_activities`):
combine both candidate sets, deduplicate by id, then either report (dry
run, with a preview of the first 10) or delete. -/
def cleanup_old_activities (st : St) (days_to_keep : ℕ := 7)
    (keep_recent_per_lead : ℕ := 5) (dry_run : Bool := true) :
    St × CleanupResult :=
  let cutoff := st.now - days_to_keep
  let old_by_date := old_activities_by_date st cutoff
  let old_by_count := old_activities_by_count st keep_recent_per_lead
  let all_old := dedupById (old_by_date ++ old_by_count)
  if dry_run then
    (st, .dryRun old_by_date.length old_by_count.length all_old.length
      (all_old.take 10))
  else
    ({ st with
        activities := st.activities.filter
          (fun a => ¬ a.id ∈ all_old.map (fun x => x.id)) },
     .deleted all_old.length)

/-- `scripts/cleanup_activities.py cleanup_old_activities` (pruneByAge):
the age-based candidate selection plus the optional deletion. Returns the
new state and the candidate list. -/
def script_cleanup_old_activities (st : St) (days_to_keep : ℕ := 7)
    (dry_run : Bool := true) : St × List ActivityLog :=
  let cutoff := st.now - days_to_keep
  let old_activities := st.activities.filter (fun a => a.created_at < cutoff)
  if dry_run then (st, old_activities)
  else
    ({ st with activities :=
        st.activities.filter (fun a => ¬ a.created_at < cutoff) },
     old_activities)

/-- `scripts/cleanup_activities.py cleanup_activities_by_lead` with no
`lead_id` (pruneByCountPerLead): for every lead, order its activities by
`created_at` descending and mark everything beyond `keep_recent` for
deletion. Returns the candidate list. -/
def script_cleanup_activities_by_lead (st : St) (keep_recent : ℕ := 5) :
    List ActivityLog :=
  st.leads.bind (fun lead =>
    let activities := sortActivitiesDesc
      (st.activities.filter (fun a => a.lead_id == lead.id))
    if activities.length ≤ keep_recent then []
    else activities.drop keep_recent)

/-- The router's count-based candidates coincide with the script's. -/
theorem old_by_count_eq_script (st : St) (keep : ℕ) :
    old_activities_by_count st keep
      = script_cleanup_activities_by_lead st keep := by
  unfold old_activities_by_count script_cleanup_activities_by_lead
  congr 1
  funext lead
  by_cases hlt : keep < (sortActivitiesDesc
      (st.activities.filter (fun a => a.lead_id == lead.id))).length
  · rw [if_pos hlt, if_neg (not_le.mpr hlt)]
  · rw [if_neg hlt, if_pos (not_lt.mp hlt)]

/-- Membership in the id projection of `dedupByIdAux`. -/
theorem mem_map_id_dedupByIdAux :
    ∀ (l : List ActivityLog) (seen : List ℕ) (i : ℕ),
      i ∈ (dedupByIdAux l seen).map (fun a => a.id)
        ↔ i ∈ l.map (fun a => a.id) ∧ i ∉ seen := by
  intro l
  induction l with
  | nil => intro seen i; simp [dedupByIdAux]
  | cons a rest ih =>
    intro seen i
    unfold dedupByIdAux
    by_cases ha : a.id ∈ seen
    · rw [if_pos ha, ih]
      simp only [List.map_cons, List.mem_cons]
      constructor
      · rintro ⟨h1, h2⟩
        exact ⟨Or.inr h1, h2⟩
      · rintro ⟨h1 | h1, h2⟩
        · subst h1
          exact absurd ha h2
        · exact ⟨h1, h2⟩
    · rw [if_neg ha]
      simp only [List.map_cons, List.mem_cons, ih]
      constructor
      · rintro (rfl | ⟨h1, h2⟩)
        · exact ⟨Or.inl rfl, ha⟩
        · exact ⟨Or.inr h1, fun hc => h2 (Or.inr hc)⟩
      · rintro ⟨h1 | h1, h2⟩
        · exact Or.inl h1
        · by_cases hia : i = a.id
          · exact Or.inl hia
          · exact Or.inr ⟨h1, fun hc => hc.elim hia h2⟩

/-- The ids of a deduplicated list are free of duplicates: an activity in
both candidate sets is kept (hence deleted and counted) once. -/
theorem nodup_map_id_dedupByIdAux :
    ∀ (l : List ActivityLog) (seen : List ℕ),
      ((dedupByIdAux l seen).map (fun a => a.id)).Nodup := by
  intro l
  induction l with
  | nil => intro seen; simp [dedupByIdAux]
  | cons a rest ih =>
    intro seen
    unfold dedupByIdAux
    by_cases ha : a.id ∈ seen
    · rw [if_pos ha]
      exact ih seen
    · rw [if_neg ha]
      rw [List.map_cons, List.nodup_cons]
      refine ⟨fun hc => ?_, ih _⟩
      rw [mem_map_id_dedupByIdAux] at hc
      exact hc.2 (List.mem_cons_self _ _)

/-- The age candidates are stored activities. -/
theorem age_candidates_subset {st : St} {cutoff : ℕ} {a : ActivityLog}
    (h : a ∈ old_activities_by_date st cutoff) : a ∈ st.activities :=
  (List.mem_filter.mp h).1

/-- The count candidates are stored activities. -/
theorem count_candidates_subset {st : St} {keep : ℕ} {a : ActivityLog}
    (h : a ∈ script_cleanup_activities_by_lead st keep) :
    a ∈ st.activities := by
  unfold script_cleanup_activities_by_lead at h
  rw [List.mem_bind] at h
  obtain ⟨lead, -, h⟩ := h
  have h' : a ∈ (if (sortActivitiesDesc
      (st.activities.filter (fun a => a.lead_id == lead.id))).length ≤ keep
    then ([] : List ActivityLog)
    else List.drop keep (sortActivitiesDesc
      (st.activities.filter (fun a => a.lead_id == lead.id)))) := h
  split at h'
  · simp at h'
  · have h1 := List.mem_of_mem_drop h'
    rw [sortActivitiesDesc, List.mem_insertionSort, List.mem_filter] at h1
    exact h1.1

/-- The router's age candidates are the script's (`pruneByAge`). -/
theorem old_by_date_eq_script (st : St) (days : ℕ) :
    old_activities_by_date st (st.now - days)
      = (script_cleanup_old_activities st days true).2 := rfl

/-- C5: in live mode `pruneCombined` deletes exactly the union of the
age-based (`pruneByAge`, from the cleanup script) and per-lead count-based
(`pruneByCountPerLead`) candidate sets; the deleted count is the size of
the id-deduplicated union (an activity satisfying both conditions is
counted once — the deduplicated ids are free of duplicates); in dry-run
mode the state is unchanged and the endpoint reports the two candidate
counts, the total, and a preview of at most the first 10 candidates. -/
theorem C5_prune_combined_union (st : St) (days keep : ℕ)
    (hnodup : (st.activities.map (fun a => a.id)).Nodup) :
    (cleanup_old_activities st days keep true).1 = st
    ∧ (cleanup_old_activities st days keep true).2
        = .dryRun (script_cleanup_old_activities st days true).2.length
            (script_cleanup_activities_by_lead st keep).length
            (dedupById ((script_cleanup_old_activities st days true).2
              ++ script_cleanup_activities_by_lead st keep)).length
            ((dedupById ((script_cleanup_old_activities st days true).2
              ++ script_cleanup_activities_by_lead st keep)).take 10)
    ∧ ((dedupById ((script_cleanup_old_activities st days true).2
        ++ script_cleanup_activities_by_lead st keep)).take 10).length ≤ 10
    ∧ (∀ a ∈ st.activities,
        (a ∉ (cleanup_old_activities st days keep false).1.activities
          ↔ (a ∈ (script_cleanup_old_activities st days true).2
             ∨ a ∈ script_cleanup_activities_by_lead st keep)))
    ∧ (cleanup_old_activities st days keep false).2
        = .deleted (dedupById ((script_cleanup_old_activities st days true).2
            ++ script_cleanup_activities_by_lead st keep)).length
    ∧ ((dedupById ((script_cleanup_old_activities st days true).2
        ++ script_cleanup_activities_by_lead st keep)).map
          (fun a => a.id)).Nodup := by
  have hcount := old_by_count_eq_script st keep
  have hage := old_by_date_eq_script st days
  have hinj : ∀ x ∈ st.activities, ∀ y ∈ st.activities, x.id = y.id → x = y :=
    List.inj_on_of_nodup_map hnodup
  refine ⟨rfl, ?_, ?_, ?_, ?_, ?_⟩
  · show CleanupResult.dryRun
        (old_activities_by_date st (st.now - days)).length
        (old_activities_by_count st keep).length
        (dedupById (old_activities_by_date st (st.now - days)
          ++ old_activities_by_count st keep)).length
        ((dedupById (old_activities_by_date st (st.now - days)
          ++ old_activities_by_count st keep)).take 10) = _
    rw [hcount, hage]
  · exact List.length_take_le 10 _
  · intro a ha
    have hstep1 : a ∉ (cleanup_old_activities st days keep false).1.activities
        ↔ a.id ∈ (dedupById (old_activities_by_date st (st.now - days)
            ++ old_activities_by_count st keep)).map (fun x => x.id) := by
      show a ∉ st.activities.filter _ ↔ _
      rw [List.mem_filter]
      constructor
      · intro hnot
        by_contra hid
        exact hnot ⟨ha, by simpa using hid⟩
      · intro hid hmem
        exact (by simpa using hmem.2 : ¬ _) hid
    rw [hstep1, show dedupById (old_activities_by_date st (st.now - days)
        ++ old_activities_by_count st keep)
        = dedupByIdAux (old_activities_by_date st (st.now - days)
          ++ old_activities_by_count st keep) [] from rfl,
      mem_map_id_dedupByIdAux]
    simp only [List.mem_nil_iff, not_false_iff, and_true, List.map_append,
      List.mem_append]
    have hiff : ∀ (cand : List ActivityLog), (∀ x ∈ cand, x ∈ st.activities) →
        (a.id ∈ cand.map (fun x => x.id) ↔ a ∈ cand) := by
      intro cand hsub
      constructor
      · intro hm
        rw [List.mem_map] at hm
        obtain ⟨b, hb, hbid⟩ := hm
        have : b = a := hinj b (hsub b hb) a ha hbid
        exact this ▸ hb
      · intro hm
        exact List.mem_map_of_mem _ hm
    rw [hiff _ (fun x hx => age_candidates_subset hx),
      hiff _ (fun x hx => count_candidates_subset (hcount ▸ hx))]
    rw [hcount, hage]
  · show CleanupResult.deleted
        (dedupById (old_activities_by_date st (st.now - days)
          ++ old_activities_by_count st keep)).length = _
    rw [hcount, hage]
  · exact nodup_map_id_dedupByIdAux _ []

/-- C5 fixture: an activity that is both older than the cutoff and beyond
the per-lead keep count. -/
def actC5a : ActivityLog :=
  { id := 1, lead_id := 1, actor := "system", action := "lead_created",
    detail := some "created", created_at := 1 }

/-- C5 fixture state: four activities for one lead at times 1, 50, 60, 95
with the clock at 100; with `days_to_keep = 30` and
`keep_recent_per_lead = 2` the first three are candidates and activity 1
satisfies both conditions. -/
def stC5 : St :=
  { leads := [{ id := 1, company := "C5Co" }]
    activities :=
      [actC5a,
       { id := 2, lead_id := 1, actor := "system", action := "note",
         detail := some "a", created_at := 50 },
       { id := 3, lead_id := 1, actor := "system", action := "note",
         detail := some "b", created_at := 60 },
       { id := 4, lead_id := 1, actor := "system", action := "note",
         detail := some "c", created_at := 95 }]
    nextActivityId := 5
    now := 100 }

/-- C5 witness: the dry-run-unchanged and deleted-iff-candidate conjuncts
at the concrete state, with the id-uniqueness hypothesis discharged. -/
theorem C5_prune_combined_union_witness :
    (cleanup_old_activities stC5 30 2 true).1 = stC5
    ∧ (actC5a ∉ (cleanup_old_activities stC5 30 2 false).1.activities
        ↔ (actC5a ∈ (script_cleanup_old_activities stC5 30 true).2
           ∨ actC5a ∈ script_cleanup_activities_by_lead stC5 2)) :=
  ⟨(C5_prune_combined_union stC5 30 2 (by decide)).1,
   (C5_prune_combined_union stC5 30 2 (by decide)).2.2.2.1 actC5a (by decide)⟩
